import Mathlib

/-!
Shallow embedding of the drone-enabled mobile edge computing node
(src/common/battery.py, src/common/messages.py, src/drone_edge/drone.py,
src/central_server/server.py), together with theorems settling the
specification claims about it.

Modelling conventions:
- Python ints are Int, Python floats are Rat (the program only ever does
  exact field arithmetic on them in the properties considered).
- The JSON wire layer is embedded structurally: a byte stream is a list of
  wire tokens, where one token is either a complete JSON payload chunk
  (json.dumps output, which never contains the newline delimiter) or the
  newline delimiter itself.  Buffer splitting on the delimiter is modelled
  on token lists.
- Mutation of Python objects becomes explicit state passing.
- Network and clock effects are parameters of the functions that use them
  (a send outcome, a current-time string, a fresh file name).
-/

/-- Structural model of a decoded JSON value as produced by json.loads. -/
inductive Json where
  | str (s : String)
  | num (q : ℚ)
  | arr (elts : List Json)
  | obj (kvs : List (String × Json))

/-- One token of the byte stream: either a complete json.dumps payload
(which never contains the delimiter byte) or the newline delimiter DELIM
appended by to_bytes in src/common/messages.py. -/
inductive WireTok where
  | payload (j : Json)
  | delim

/-- Dictionary lookup as json.loads builds dicts: for duplicate keys the
last occurrence wins, and keyword expansion then looks the key up. -/
def kwlookup (kvs : List (String × Json)) (k : String) : Option Json :=
  match kvs.reverse.find? (fun kv => kv.1 == k) with
  | some kv => some kv.2
  | none => none

/-- SensorReading from src/common/messages.py: raw data from sensor nodes
to the drone edge. -/
structure SensorReading where
  sensor_id : String
  temperature : ℚ
  humidity : ℚ
  timestamp : String
deriving DecidableEq, Repr

/-- Anomaly event dict built in DroneEdge._forward_loop (src/drone_edge/drone.py):
keys sensor_id, val (a temperature-humidity pair) and ts. -/
structure AnomalyEvent where
  sensor_id : String
  val : ℚ × ℚ
  ts : String
deriving DecidableEq, Repr

/-- DroneReport from src/common/messages.py: processed data from the drone
edge to the central server.  The anomalies field holds the anomaly dicts in
the shape DroneEdge._forward_loop builds them. -/
structure DroneReport where
  drone_id : String
  timestamp : String
  battery_level : ℤ
  status : String
  avg_temperature : ℚ
  avg_humidity : ℚ
  sensor_count : ℕ
  anomalies : List AnomalyEvent
deriving DecidableEq, Repr

/-- json.dumps(asdict(self)) for a SensorReading: an object with exactly the
four dataclass fields, in declaration order. -/
def SensorReading.to_json (r : SensorReading) : Json :=
  Json.obj [("sensor_id", Json.str r.sensor_id),
            ("temperature", Json.num r.temperature),
            ("humidity", Json.num r.humidity),
            ("timestamp", Json.str r.timestamp)]

/-- SensorReading.to_bytes: the json.dumps payload followed by the DELIM
newline. -/
def SensorReading.to_bytes (r : SensorReading) : List WireTok :=
  [WireTok.payload r.to_json, WireTok.delim]

/-- asdict applied to one anomaly dict (dicts pass through asdict
unchanged): keys sensor_id, val, ts as built in DroneEdge._forward_loop. -/
def AnomalyEvent.to_json (a : AnomalyEvent) : Json :=
  Json.obj [("sensor_id", Json.str a.sensor_id),
            ("val", Json.arr [Json.num a.val.1, Json.num a.val.2]),
            ("ts", Json.str a.ts)]

/-- Parse one anomaly dict of the shape DroneEdge._forward_loop produces. -/
def AnomalyEvent.from_json : Json → Option AnomalyEvent
  | Json.obj [("sensor_id", Json.str sid),
              ("val", Json.arr [Json.num t, Json.num h]),
              ("ts", Json.str ts)] => some ⟨sid, (t, h), ts⟩
  | _ => none

/-- json.dumps(asdict(self)) for a DroneReport: an object with exactly the
eight dataclass fields, in declaration order. -/
def DroneReport.to_json (r : DroneReport) : Json :=
  Json.obj [("drone_id", Json.str r.drone_id),
            ("timestamp", Json.str r.timestamp),
            ("battery_level", Json.num (r.battery_level : ℚ)),
            ("status", Json.str r.status),
            ("avg_temperature", Json.num r.avg_temperature),
            ("avg_humidity", Json.num r.avg_humidity),
            ("sensor_count", Json.num (r.sensor_count : ℚ)),
            ("anomalies", Json.arr (r.anomalies.map AnomalyEvent.to_json))]

/-- DroneReport.to_bytes: the json.dumps payload followed by the DELIM
newline. -/
def DroneReport.to_bytes (r : DroneReport) : List WireTok :=
  [WireTok.payload r.to_json, WireTok.delim]

/-- SensorReading(**json.loads(raw)) as in SensorReading.from_bytes:
keyword expansion requires every key to be a dataclass field, the three
fields without defaults must be present, and a missing timestamp falls back
to the default factory (the current time, passed in as now).  The dataclass
performs no runtime type checking; the model restricts decoding to the
well-typed records that the encoder produces. -/
def SensorReading.from_json (now : String) (j : Json) : Option SensorReading :=
  match j with
  | Json.obj kvs =>
    if kvs.all (fun kv => ["sensor_id", "temperature", "humidity", "timestamp"].contains kv.1) then
      match kwlookup kvs "sensor_id", kwlookup kvs "temperature", kwlookup kvs "humidity" with
      | some (Json.str sid), some (Json.num t), some (Json.num h) =>
        match kwlookup kvs "timestamp" with
        | some (Json.str ts) => some ⟨sid, t, h, ts⟩
        | none => some ⟨sid, t, h, now⟩
        | some _ => none
      | _, _, _ => none
    else none
  | _ => none

/-- DroneReport(**json.loads(raw)) as in src/central_server/server.py:
keyword expansion requires every key to be a dataclass field and all eight
fields to be present (none has a default).  Numeric fields declared int in
the dataclass are restricted to integral JSON numbers. -/
def DroneReport.from_json (j : Json) : Option DroneReport :=
  match j with
  | Json.obj kvs =>
    if kvs.all (fun kv => ["drone_id", "timestamp", "battery_level", "status",
                           "avg_temperature", "avg_humidity", "sensor_count",
                           "anomalies"].contains kv.1) then
      match kwlookup kvs "drone_id", kwlookup kvs "timestamp",
            kwlookup kvs "battery_level", kwlookup kvs "status",
            kwlookup kvs "avg_temperature", kwlookup kvs "avg_humidity",
            kwlookup kvs "sensor_count", kwlookup kvs "anomalies" with
      | some (Json.str did), some (Json.str ts), some (Json.num bl),
        some (Json.str st), some (Json.num avgT), some (Json.num avgH),
        some (Json.num sc), some (Json.arr ans) =>
        if bl.den = 1 ∧ sc.den = 1 ∧ 0 ≤ sc.num then
          (ans.mapM AnomalyEvent.from_json).map (fun anomalies =>
            { drone_id := did, timestamp := ts, battery_level := bl.num,
              status := st, avg_temperature := avgT, avg_humidity := avgH,
              sensor_count := sc.num.toNat, anomalies := anomalies })
        else none
      | _, _, _, _, _, _, _, _ => none
    else none
  | _ => none

/-- buffer.split(DELIM.encode(), 1) guarded by DELIM in buffer: split the
stream at the first delimiter into the raw frame before it and the
remaining buffer, or report that no complete frame is available. -/
def split_frame : List WireTok → Option (List WireTok × List WireTok)
  | [] => none
  | WireTok.delim :: rest => some ([], rest)
  | tok :: rest =>
    match split_frame rest with
    | some (pre, post) => some (tok :: pre, post)
    | none => none

/-- Decode one delimiter-stripped frame as a SensorReading, as the sensor
handler in src/drone_edge/drone.py does: take the frame before the first
delimiter and parse it with SensorReading.from_bytes. -/
def SensorReading.decode (now : String) (bs : List WireTok) : Option SensorReading :=
  match split_frame bs with
  | some (raw, _rest) =>
    match raw with
    | [WireTok.payload j] => SensorReading.from_json now j
    | _ => none
  | none => none

/-- Decode one delimiter-stripped frame as a DroneReport, as the central
server main loop does. -/
def DroneReport.decode (bs : List WireTok) : Option DroneReport :=
  match split_frame bs with
  | some (raw, _rest) =>
    match raw with
    | [WireTok.payload j] => DroneReport.from_json j
    | _ => none
  | none => none

/-- Battery from src/common/battery.py: charge level, rates, the
per-instance low threshold and the hysteretic returning flag. -/
structure Battery where
  level : ℤ
  drain_rate : ℤ
  recharge_rate : ℤ
  LOW_BATTERY_THRESHOLD : ℤ
  returning : Bool
deriving DecidableEq, Repr

/-- Class constant Battery.CRITICAL_BATTERY_THRESHOLD. -/
def Battery.CRITICAL_BATTERY_THRESHOLD : ℤ := 90

/-- Class constant Battery.RECHARGE_RATE. -/
def Battery.RECHARGE_RATE : ℤ := 10

/-- Class constant Battery.DRAIN_RATE. -/
def Battery.DRAIN_RATE : ℤ := 3

/-- Battery.__init__(start, drain, recharge, low_threshold): returning
starts False. -/
def Battery.init (start drain recharge low_threshold : ℤ) : Battery :=
  { level := start, drain_rate := drain, recharge_rate := recharge,
    LOW_BATTERY_THRESHOLD := low_threshold, returning := false }

/-- Battery.tick(charging): update the level (clamped to 0 and 100), then
re-evaluate the returning flag with hysteresis. -/
def Battery.tick (b : Battery) (charging : Bool) : Battery :=
  let level : ℤ :=
    if charging then min 100 (b.level + b.recharge_rate)
    else max 0 (b.level - b.drain_rate)
  let returning : Bool :=
    if b.returning = false ∧ level < b.LOW_BATTERY_THRESHOLD then true
    else if b.returning = true ∧ Battery.CRITICAL_BATTERY_THRESHOLD ≤ level then false
    else b.returning
  { b with level := level, returning := returning }

/-- Iterated Battery.tick with a constant charging flag. -/
def Battery.tickN (b : Battery) (charging : Bool) : ℕ → Battery
  | 0 => b
  | n + 1 => (b.tickN charging n).tick charging

/-- Config constant FORWARD_BATCH in src/drone_edge/drone.py: send to
central after 5 readings. -/
def FORWARD_BATCH : ℕ := 5

/-- is_anomaly from src/drone_edge/drone.py: true when temperature is
outside 0..40 or humidity is outside 10..90 (the THRESHOLDS table). -/
def is_anomaly (r : SensorReading) : Bool :=
  !(decide ((0 : ℚ) ≤ r.temperature ∧ r.temperature ≤ 40)
    && decide ((10 : ℚ) ≤ r.humidity ∧ r.humidity ≤ 90))

/-- Anomaly event dict built for an anomalous reading in
DroneEdge._forward_loop. -/
def mkAnomalyEvent (r : SensorReading) : AnomalyEvent :=
  { sensor_id := r.sensor_id, val := (r.temperature, r.humidity), ts := r.timestamp }

/-- A reading object as DroneEdge._send_report inspects it with hasattr:
each of the fields it touches may be absent.  Actual SensorReading objects
always carry all three. -/
structure RawReading where
  sensor_id : Option String
  temperature : Option ℚ
  humidity : Option ℚ
deriving DecidableEq, Repr

/-- View of a SensorReading as the object _send_report receives: all
fields present. -/
def SensorReading.toRaw (r : SensorReading) : RawReading :=
  { sensor_id := some r.sensor_id, temperature := some r.temperature,
    humidity := some r.humidity }

/-- The valid_readings filter in DroneEdge._send_report: readings carrying
both a temperature and a humidity attribute. -/
def validReadings (readings : List RawReading) : List RawReading :=
  readings.filter (fun r => r.temperature.isSome && r.humidity.isSome)

/-- Report construction in DroneEdge._send_report: none when the batch is
empty or no reading has both fields, otherwise the report with field
averages over the valid readings, the distinct-sensor count, and the
anomaly list.  The battery snapshot and the current time are inputs; the
network send attempt that follows is modelled separately by
DroneEdge.deliver_report. -/
def DroneEdge.send_report (battery : Battery) (now : String)
    (readings : List RawReading) (anomalies_list : List AnomalyEvent) :
    Option DroneReport :=
  if readings = [] then none
  else
    let valid_readings := validReadings readings
    if valid_readings = [] then none
    else
      let avg_t := (valid_readings.map (fun r => r.temperature.getD 0)).sum / valid_readings.length
      let avg_h := (valid_readings.map (fun r => r.humidity.getD 0)).sum / valid_readings.length
      some { drone_id := "drone1",
             timestamp := now,
             battery_level := battery.level,
             status := if battery.returning then "returning" else "active",
             avg_temperature := avg_t,
             avg_humidity := avg_h,
             sensor_count := ((valid_readings.filterMap RawReading.sensor_id).dedup).length,
             anomalies := anomalies_list }

/-- The battery-related mutable fields of a DroneEdge instance touched by
the operator commands: the battery object, the travel countdown and the
charging-started log flag. -/
structure DroneEdgeCtl where
  battery : Battery
  travel_ticks_remaining : ℕ
  charging_started_log_sent : Bool
deriving DecidableEq, Repr

/-- DroneEdge.manual_drain_battery(amount): a non-positive amount is a
no-op; otherwise drop the level (clamped at 0) and re-evaluate the
returning flag against the current thresholds, starting the 2-tick travel
countdown when freshly crossing below the low threshold (only if no travel
is already in progress) and cancelling travel when clearing. -/
def DroneEdge.manual_drain_battery (s : DroneEdgeCtl) (amount : ℤ) : DroneEdgeCtl :=
  if amount ≤ 0 then s
  else
    let level := max 0 (s.battery.level - amount)
    let b := { s.battery with level := level }
    if level < b.LOW_BATTERY_THRESHOLD ∧ b.returning = false then
      let b2 := { b with returning := true }
      if s.travel_ticks_remaining = 0 then
        { battery := b2, travel_ticks_remaining := 2, charging_started_log_sent := false }
      else
        { s with battery := b2 }
    else if Battery.CRITICAL_BATTERY_THRESHOLD ≤ level ∧ b.returning = true then
      { s with battery := { b with returning := false }, travel_ticks_remaining := 0 }
    else
      { s with battery := b }

/-- DroneEdge.set_low_battery_threshold(new_threshold): values outside
5..80 are rejected (Python returns False) with no state change; otherwise
the flag result is true (Python falls through returning None) and the
returning flag is re-evaluated against the requested threshold, starting
travel when freshly crossed.  Note the source never assigns
battery.LOW_BATTERY_THRESHOLD anywhere in this method. -/
def DroneEdge.set_low_battery_threshold (s : DroneEdgeCtl) (new_threshold : ℤ) :
    DroneEdgeCtl × Bool :=
  if ¬(5 ≤ new_threshold ∧ new_threshold ≤ 80) then (s, false)
  else
    let current_level := s.battery.level
    let currently_returning := s.battery.returning
    if currently_returning = false ∧ current_level < new_threshold then
      let s1 := { s with battery := { s.battery with returning := true } }
      if s.travel_ticks_remaining = 0 then
        ({ s1 with travel_ticks_remaining := 2, charging_started_log_sent := false }, true)
      else
        (s1, true)
    else
      (s, true)

/-- State of DroneEdge._forward_loop: the drone control fields plus the
loop locals (batch, anomalies, last known returning status), the trace of
reports handed to the delivery path, and whether the loop has exited via
the 0-percent shutdown break. -/
structure ForwardState where
  battery : Battery
  travel_ticks_remaining : ℕ
  charging_started_log_sent : Bool
  last_known_returning_status : Bool
  batch : List SensorReading
  anomalies : List AnomalyEvent
  sent_reports : List DroneReport
  stopped : Bool
deriving DecidableEq, Repr

/-- Battery-tick portion of one _forward_loop iteration (the block guarded
by the elapsed-time check, taken iff tick_due): charging is chosen true
exactly when the drone is returning and the travel countdown is exhausted,
a pending countdown is decremented, the battery ticks, and a level at or
below 0 triggers the shutdown break. -/
def DroneEdge.forward_tick_phase (tick_due : Bool) (s : ForwardState) : ForwardState :=
  if tick_due = false then s
  else
    let should_charge : Bool :=
      if s.battery.returning then
        (if 0 < s.travel_ticks_remaining then false else true)
      else false
    let travel :=
      if s.battery.returning = true ∧ 0 < s.travel_ticks_remaining then
        s.travel_ticks_remaining - 1
      else s.travel_ticks_remaining
    let log_sent :=
      if s.battery.returning = true ∧ s.travel_ticks_remaining = 0 then true
      else s.charging_started_log_sent
    let s1 := { s with battery := s.battery.tick should_charge,
                       travel_ticks_remaining := travel,
                       charging_started_log_sent := log_sent }
    if s1.battery.level ≤ 0 then { s1 with stopped := true } else s1

/-- Remainder of one _forward_loop iteration after the battery tick:
mode-transition handling (returning-to-active flushes any queued batch,
active-to-returning starts the travel countdown), draining at most one
reading from the queue, and the batch-size flush check.  The returning
branch of the queue drain ends in continue, which only skips a flush check
whose condition is false anyway while returning. -/
def DroneEdge.forward_rest (now : String) (incoming : Option SensorReading)
    (s1 : ForwardState) : ForwardState :=
  let cur := s1.battery.returning
  let s2 :=
    if s1.last_known_returning_status = true ∧ cur = false then
      let s2a := { s1 with charging_started_log_sent := false }
      if s2a.batch = [] then s2a
      else
        { s2a with
          sent_reports := s2a.sent_reports ++
            (DroneEdge.send_report s2a.battery now (s2a.batch.map SensorReading.toRaw)
              s2a.anomalies).toList,
          batch := [], anomalies := [] }
    else s1
  let s3 :=
    if s2.last_known_returning_status = false ∧ cur = true then
      { s2 with travel_ticks_remaining := 2, charging_started_log_sent := false }
    else s2
  let s4 := { s3 with last_known_returning_status := cur }
  let s5 :=
    match incoming with
    | none => s4
    | some reading =>
      let s5a :=
        if is_anomaly reading then
          { s4 with anomalies := s4.anomalies ++ [mkAnomalyEvent reading] }
        else s4
      { s5a with batch := s5a.batch ++ [reading] }
  if FORWARD_BATCH ≤ s5.batch.length ∧ s5.battery.returning = false then
    { s5 with
      sent_reports := s5.sent_reports ++
        (DroneEdge.send_report s5.battery now (s5.batch.map SensorReading.toRaw)
          s5.anomalies).toList,
      batch := [], anomalies := [] }
  else s5

/-- One iteration of DroneEdge._forward_loop.  tick_due models whether at
least EFFECTIVE_BATTERY_TICK_INTERVAL has elapsed, incoming models the
result of the bounded-wait queue pop (none on queue.Empty), and now the
current time string.  After the loop has exited via shutdown it performs
no further work. -/
def DroneEdge.forward_step (now : String) (tick_due : Bool)
    (incoming : Option SensorReading) (s : ForwardState) : ForwardState :=
  if s.stopped then s
  else
    let s1 := DroneEdge.forward_tick_phase tick_due s
    if s1.stopped then s1
    else DroneEdge.forward_rest now incoming s1

/-- Initial forward-loop state of a fresh DroneEdge: Battery(recharge=10,
low_threshold=20) keeps start 100 and drain 3, no travel pending, empty
batch. -/
def droneInitialForwardState : ForwardState :=
  { battery := Battery.init 100 3 10 20,
    travel_ticks_remaining := 0,
    charging_started_log_sent := false,
    last_known_returning_status := false,
    batch := [], anomalies := [], sent_reports := [], stopped := false }

/-- Run n forward-loop iterations from the initial state with a battery
tick due each iteration and an idle reading queue. -/
def runTicks : ℕ → ForwardState
  | 0 => droneInitialForwardState
  | n + 1 => DroneEdge.forward_step "" true none (runTicks n)

/-- The unsent-reports directory: one record per file, a unique name
mapping to the stored bytes. -/
abbrev UnsentStore := List (String × List WireTok)

/-- Outcome of one socket send attempt to the central server: success,
an OSError connectivity failure, or any other exception. -/
inductive SendOutcome where
  | success
  | connectivity_failure
  | other_failure

/-- Delivery portion of DroneEdge._send_report: try to send the encoded
report; on success the store is untouched; on OSError the exact encoded
bytes are written to a new file in the unsent directory (named from the
current time, passed in as fname); any other exception is only logged.
All exceptions are caught, so the caller never sees an error. -/
def DroneEdge.deliver_report (rpt : DroneReport) (outcome : SendOutcome)
    (fname : String) (store : UnsentStore) : UnsentStore :=
  match outcome with
  | SendOutcome.success => store
  | SendOutcome.connectivity_failure => store ++ [(fname, rpt.to_bytes)]
  | SendOutcome.other_failure => store

/-- One record of an iteration of DroneEdge._retry_unsent_reports_loop:
the stored bytes are read and re-sent raw (the source never parses them;
the json.loads call is commented out, so the JSONDecodeError delete branch
is unreachable).  A successful send deletes the file; an OSError keeps it
untouched for the next cycle. -/
def DroneEdge.retry_record (connected : Bool) (rec : String × List WireTok) :
    Option (String × List WireTok) :=
  if connected then none else some rec

/-- One wake-up of the retry loop over every currently persisted record. -/
def DroneEdge.retry_cycle (connected : Bool) (store : UnsentStore) : UnsentStore :=
  store.filterMap (DroneEdge.retry_record connected)

/-- One operator-visible battery mutation: a forward-loop tick with a given
charging flag, or a manual drain from the control surface. -/
inductive BatteryOp where
  | tick (charging : Bool)
  | drain (amount : ℤ)

/-- Apply one battery operation to the drone control state. -/
def DroneEdge.applyOp (s : DroneEdgeCtl) : BatteryOp → DroneEdgeCtl
  | BatteryOp.tick c => { s with battery := s.battery.tick c }
  | BatteryOp.drain a => DroneEdge.manual_drain_battery s a

/-- Apply a sequence of battery operations in order. -/
def DroneEdge.applyOps (s : DroneEdgeCtl) (ops : List BatteryOp) : DroneEdgeCtl :=
  ops.foldl DroneEdge.applyOp s

/-- A forward-loop state about to observe a returning-to-active
transition with a 3-reading batch queued (below the size threshold 5). -/
def flushWitnessState : ForwardState :=
  { battery := { level := 93, drain_rate := 3, recharge_rate := 10,
                 LOW_BATTERY_THRESHOLD := 20, returning := false },
    travel_ticks_remaining := 0,
    charging_started_log_sent := false,
    last_known_returning_status := true,
    batch := [⟨"s1", 25, 50, "t1"⟩, ⟨"s2", 26, 51, "t2"⟩, ⟨"s1", 27, 52, "t3"⟩],
    anomalies := [], sent_reports := [], stopped := false }

/-- Stored bytes that do not decode as a DroneReport: a persisted file
holding a bare JSON string instead of a report object. -/
def corruptFrame : List WireTok :=
  [WireTok.payload (Json.str "garbage"), WireTok.delim]

/-- A mixed batch for exercising _send_report: two valid readings from the
same sensor and one reading missing its fields. -/
def mixedRawBatch : List RawReading :=
  [{ sensor_id := some "s1", temperature := some 10, humidity := some 20 },
   { sensor_id := none, temperature := none, humidity := some 30 },
   { sensor_id := some "s1", temperature := some 20, humidity := some 40 }]

/-- A concrete report used to exercise the delivery path. -/
def exampleReport : DroneReport :=
  { drone_id := "drone1", timestamp := "t0", battery_level := 80,
    status := "active", avg_temperature := 15, avg_humidity := 30,
    sensor_count := 1, anomalies := [] }

/-- Invariant carried through battery operation sequences: the level is in
range and both rates are non-negative (as every Battery the program
constructs has). -/
def CtlInv (s : DroneEdgeCtl) : Prop :=
  0 ≤ s.battery.level ∧ s.battery.level ≤ 100 ∧
  0 ≤ s.battery.drain_rate ∧ 0 ≤ s.battery.recharge_rate

/-! Helper lemmas shared by the claim theorems. -/

/-- A reading reaching _send_report through the queue always carries both
fields, so the valid_readings filter keeps the whole batch. -/
theorem validReadings_map_toRaw (batch : List SensorReading) :
    validReadings (batch.map SensorReading.toRaw) = batch.map SensorReading.toRaw := by
  rw [validReadings, List.filter_eq_self]
  intro r hr
  rcases List.mem_map.mp hr with ⟨x, _, rfl⟩
  rfl

/-- _send_report on a non-empty batch of queue readings always builds a
report, and the report carries exactly the accumulated anomaly list. -/
theorem send_report_mapped_batch (b : Battery) (now : String)
    (batch : List SensorReading) (anoms : List AnomalyEvent) (h : batch ≠ []) :
    ∃ rpt, DroneEdge.send_report b now (batch.map SensorReading.toRaw) anoms = some rpt ∧
      rpt.anomalies = anoms := by
  have hne : batch.map SensorReading.toRaw ≠ [] := by
    simpa using h
  simp [DroneEdge.send_report, hne, validReadings_map_toRaw]

/-- The battery-tick phase touches only the battery, the travel countdown,
the charging log flag and the stopped flag. -/
theorem forward_tick_phase_frame (tick_due : Bool) (s : ForwardState) :
    (DroneEdge.forward_tick_phase tick_due s).batch = s.batch ∧
    (DroneEdge.forward_tick_phase tick_due s).anomalies = s.anomalies ∧
    (DroneEdge.forward_tick_phase tick_due s).sent_reports = s.sent_reports ∧
    (DroneEdge.forward_tick_phase tick_due s).last_known_returning_status =
      s.last_known_returning_status := by
  rw [DroneEdge.forward_tick_phase]
  split
  · exact ⟨rfl, rfl, rfl, rfl⟩
  · dsimp only
    simp only [apply_ite ForwardState.batch, apply_ite ForwardState.anomalies,
               apply_ite ForwardState.sent_reports,
               apply_ite ForwardState.last_known_returning_status, ite_self]
    simp

/-- While the freshly ticked battery still reports returning, the rest of
the loop iteration sends nothing and only queues the incoming reading. -/
theorem forward_rest_returning_no_flush (now : String) (incoming : Option SensorReading)
    (t : ForwardState) (hcur : t.battery.returning = true) :
    (DroneEdge.forward_rest now incoming t).sent_reports = t.sent_reports ∧
    (DroneEdge.forward_rest now incoming t).batch = t.batch ++ incoming.toList := by
  rw [DroneEdge.forward_rest.eq_def]
  simp only [hcur]
  by_cases hl : t.last_known_returning_status = false <;>
    cases incoming with
    | none => simp [hl, hcur]
    | some r => by_cases ha : is_anomaly r <;> simp [hl, ha, hcur]

/-- At a returning-to-active transition with a non-empty batch, the rest of
the loop iteration flushes that batch with its anomalies as one report and
clears both accumulators. -/
theorem forward_rest_transition_flush (now : String) (incoming : Option SensorReading)
    (t : ForwardState) (hlast : t.last_known_returning_status = true)
    (hcur : t.battery.returning = false) (hbatch : t.batch ≠ []) :
    (∃ rpt, DroneEdge.send_report t.battery now (t.batch.map SensorReading.toRaw)
        t.anomalies = some rpt ∧ rpt.anomalies = t.anomalies ∧
      (DroneEdge.forward_rest now incoming t).sent_reports = t.sent_reports ++ [rpt]) ∧
    (DroneEdge.forward_rest now incoming t).batch = incoming.toList ∧
    (DroneEdge.forward_rest now incoming t).anomalies =
      (incoming.toList.filter (fun r => is_anomaly r)).map mkAnomalyEvent := by
  obtain ⟨rpt, hsend, hanoms⟩ :=
    send_report_mapped_batch t.battery now t.batch t.anomalies hbatch
  rw [DroneEdge.forward_rest.eq_def]
  simp only [hlast, hcur, hbatch, hsend]
  cases incoming with
  | none =>
    simp [hbatch, hsend, FORWARD_BATCH]
    exact hanoms
  | some r =>
    by_cases ha : is_anomaly r <;>
      (simp [hbatch, hsend, ha, FORWARD_BATCH]; exact hanoms)

/-- With no shutdown in this iteration, a forward-loop step is the tick
phase followed by the rest of the iteration. -/
theorem forward_step_eq_rest (now : String) (tick_due : Bool)
    (incoming : Option SensorReading) (s : ForwardState)
    (hrun : s.stopped = false)
    (hnostop : (DroneEdge.forward_tick_phase tick_due s).stopped = false) :
    DroneEdge.forward_step now tick_due incoming s =
      DroneEdge.forward_rest now incoming (DroneEdge.forward_tick_phase tick_due s) := by
  rw [DroneEdge.forward_step]
  simp [hrun, hnostop]

/-! Claim theorems. -/

/-- C2: across every sequence of ticks of a battery whose critical
threshold exceeds its low threshold, the returning flag becomes true only
at a step whose new level is below the low threshold and becomes false
only at a step whose new level is at least the critical threshold; and in
the concrete scenario with low threshold 20 and critical threshold 90, a
battery at level 25 ticks down through 22 to 19 where returning becomes
true, stays returning through levels 29 to 89 while recharging, and clears
exactly at the first level of at least 90 (here 99). -/
theorem battery_tick_hysteresis :
    (∀ (b : Battery) (c : Bool),
      b.LOW_BATTERY_THRESHOLD < Battery.CRITICAL_BATTERY_THRESHOLD →
      (b.returning = false → (b.tick c).returning = true →
        (b.tick c).level < b.LOW_BATTERY_THRESHOLD) ∧
      (b.returning = true → (b.tick c).returning = false →
        Battery.CRITICAL_BATTERY_THRESHOLD ≤ (b.tick c).level)) ∧
    ((Battery.init 25 3 10 20).tickN false 1).level = 22 ∧
    ((Battery.init 25 3 10 20).tickN false 1).returning = false ∧
    ((Battery.init 25 3 10 20).tickN false 2).level = 19 ∧
    ((Battery.init 25 3 10 20).tickN false 2).returning = true ∧
    (∀ k, k < 8 →
      (((Battery.init 25 3 10 20).tickN false 2).tickN true k).level = 19 + 10 * k ∧
      (((Battery.init 25 3 10 20).tickN false 2).tickN true k).returning = true) ∧
    (((Battery.init 25 3 10 20).tickN false 2).tickN true 8).level = 99 ∧
    (((Battery.init 25 3 10 20).tickN false 2).tickN true 8).returning = false := by
  constructor
  · intro b c h
    simp only [Battery.tick]
    constructor
    · intro hb
      simp [hb]
    · intro hb
      simp [hb]
  · exact ⟨by decide, by decide, by decide, by decide, by decide, by decide, by decide⟩

/-- C2 witness: the hysteresis step conditions discharged at two concrete
batteries, one crossing below the low threshold while draining and one
reaching the critical threshold while charging. -/
theorem battery_tick_hysteresis_witness :
    ((Battery.init 18 3 10 20).tick false).level < (Battery.init 18 3 10 20).LOW_BATTERY_THRESHOLD ∧
    Battery.CRITICAL_BATTERY_THRESHOLD ≤
      (({ Battery.init 85 3 10 20 with returning := true } : Battery).tick true).level := by
  constructor
  · exact (battery_tick_hysteresis.1 (Battery.init 18 3 10 20) false (by decide)).1
      (by decide) (by decide)
  · exact (battery_tick_hysteresis.1
      ({ Battery.init 85 3 10 20 with returning := true } : Battery) true (by decide)).2
      (by decide) (by decide)

/-- C3: in any non-shutdown forward-loop iteration, while the ticked
battery still reports returning nothing is flushed (regardless of the
batch size) and the incoming reading is only queued; at an iteration where
the returning flag observed last time was true and the ticked battery now
reports not returning, a non-empty batch is flushed as exactly one report
carrying the accumulated anomalies, and batch and anomaly list are cleared
(then restarted from the incoming reading). -/
theorem forward_loop_flush_discipline (now : String) (tick_due : Bool)
    (incoming : Option SensorReading) (s : ForwardState)
    (hrun : s.stopped = false)
    (hnostop : (DroneEdge.forward_tick_phase tick_due s).stopped = false) :
    ((DroneEdge.forward_tick_phase tick_due s).battery.returning = true →
      (DroneEdge.forward_step now tick_due incoming s).sent_reports = s.sent_reports ∧
      (DroneEdge.forward_step now tick_due incoming s).batch = s.batch ++ incoming.toList) ∧
    ((DroneEdge.forward_tick_phase tick_due s).battery.returning = false →
      s.last_known_returning_status = true → s.batch ≠ [] →
      (∃ rpt, DroneEdge.send_report (DroneEdge.forward_tick_phase tick_due s).battery now
          (s.batch.map SensorReading.toRaw) s.anomalies = some rpt ∧
        rpt.anomalies = s.anomalies ∧
        (DroneEdge.forward_step now tick_due incoming s).sent_reports =
          s.sent_reports ++ [rpt]) ∧
      (DroneEdge.forward_step now tick_due incoming s).batch = incoming.toList ∧
      (DroneEdge.forward_step now tick_due incoming s).anomalies =
        (incoming.toList.filter (fun r => is_anomaly r)).map mkAnomalyEvent) := by
  obtain ⟨hb, ha, hs, hl⟩ := forward_tick_phase_frame tick_due s
  rw [forward_step_eq_rest now tick_due incoming s hrun hnostop]
  constructor
  · intro hcur
    obtain ⟨h1, h2⟩ := forward_rest_returning_no_flush now incoming _ hcur
    rw [h1, h2, hb, hs]
    exact ⟨rfl, rfl⟩
  · intro hcur hlast hbatch
    have hlast2 : (DroneEdge.forward_tick_phase tick_due s).last_known_returning_status = true := by
      rw [hl]; exact hlast
    have hbatch2 : (DroneEdge.forward_tick_phase tick_due s).batch ≠ [] := by
      rw [hb]; exact hbatch
    obtain ⟨⟨rpt, hsend, hanoms, hsent⟩, hb2, ha2⟩ :=
      forward_rest_transition_flush now incoming _ hlast2 hcur hbatch2
    rw [hb, ha] at hsend
    rw [ha] at hanoms
    rw [hs] at hsent
    exact ⟨⟨rpt, hsend, hanoms, hsent⟩, hb2, ha2⟩

/-- C3 witness: at the concrete transition state, the step emits exactly
one report and clears the 3-reading batch even though 3 is below the
batch-size threshold. -/
theorem forward_loop_flush_discipline_witness :
    (DroneEdge.forward_step "t0" false none flushWitnessState).batch = [] ∧
    (DroneEdge.forward_step "t0" false none flushWitnessState).sent_reports.length = 1 := by
  obtain ⟨⟨rpt, hsend, hanoms, hsent⟩, hbatch, hanom⟩ :=
    (forward_loop_flush_discipline "t0" false none flushWitnessState rfl rfl).2
      rfl rfl (by decide)
  refine ⟨hbatch, ?_⟩
  rw [hsent]
  rfl

/-- C4: the battery-tick phase of the forward loop charges exactly when
the battery is returning and the travel countdown has reached zero; in the
concrete run from a full battery with drain 3, recharge 10 and low
threshold 20, tick 27 reaches level 19 and sets returning with the travel
countdown at 2, ticks 28 and 29 still drain to 16 and 13, and from tick 30
the level rises by 10 per tick (23, 33, ..., 93) until tick 37 reaches 93,
at least the critical 90, where returning clears. -/
theorem forward_tick_charging_policy :
    (∀ s : ForwardState,
      (DroneEdge.forward_tick_phase true s).battery =
        s.battery.tick (s.battery.returning && decide (s.travel_ticks_remaining = 0))) ∧
    (runTicks 26).battery.level = 22 ∧
    (runTicks 26).battery.returning = false ∧
    (runTicks 27).battery.level = 19 ∧
    (runTicks 27).battery.returning = true ∧
    (runTicks 27).travel_ticks_remaining = 2 ∧
    (runTicks 28).battery.level = 16 ∧
    (runTicks 28).battery.returning = true ∧
    (runTicks 28).travel_ticks_remaining = 1 ∧
    (runTicks 29).battery.level = 13 ∧
    (runTicks 29).battery.returning = true ∧
    (runTicks 29).travel_ticks_remaining = 0 ∧
    (∀ k, k < 8 → (runTicks (30 + k)).battery.level = 23 + 10 * k) ∧
    (runTicks 36).battery.returning = true ∧
    (runTicks 37).battery.level = 93 ∧
    (runTicks 37).battery.returning = false := by
  constructor
  · intro s
    simp only [DroneEdge.forward_tick_phase]
    cases hb : s.battery.returning <;> cases ht : s.travel_ticks_remaining <;>
      simp [hb, ht] <;> split <;> rfl
  · exact ⟨by decide, by decide, by decide, by decide, by decide, by decide, by decide,
      by decide, by decide, by decide, by decide, by decide, by decide, by decide, by decide⟩

/-- Manual drain with a positive amount: the level is clamped below at 0
and the battery rates are untouched. -/
theorem manual_drain_eqs (s : DroneEdgeCtl) (a : ℤ) (h : ¬ a ≤ 0) :
    (DroneEdge.manual_drain_battery s a).battery.level = max 0 (s.battery.level - a) ∧
    (DroneEdge.manual_drain_battery s a).battery.drain_rate = s.battery.drain_rate ∧
    (DroneEdge.manual_drain_battery s a).battery.recharge_rate = s.battery.recharge_rate := by
  rw [DroneEdge.manual_drain_battery]
  simp only [if_neg h]
  split_ifs <;> simp

/-- One battery tick keeps the level in range and the rates unchanged. -/
theorem tick_level_bounds (b : Battery) (c : Bool)
    (h0 : 0 ≤ b.level) (h1 : b.level ≤ 100)
    (hd : 0 ≤ b.drain_rate) (hr : 0 ≤ b.recharge_rate) :
    0 ≤ (b.tick c).level ∧ (b.tick c).level ≤ 100 ∧
    (b.tick c).drain_rate = b.drain_rate ∧ (b.tick c).recharge_rate = b.recharge_rate := by
  simp only [Battery.tick]
  cases c <;> simp <;> omega

/-- One battery operation preserves the range invariant. -/
theorem applyOp_inv (s : DroneEdgeCtl) (op : BatteryOp) (h : CtlInv s) :
    CtlInv (DroneEdge.applyOp s op) := by
  obtain ⟨h0, h1, hd, hr⟩ := h
  cases op with
  | tick c =>
    obtain ⟨g0, g1, g2, g3⟩ := tick_level_bounds s.battery c h0 h1 hd hr
    exact ⟨g0, g1, by rw [DroneEdge.applyOp]; rw [g2]; exact hd,
           by rw [DroneEdge.applyOp]; rw [g3]; exact hr⟩
  | drain a =>
    by_cases ha : a ≤ 0
    · rw [DroneEdge.applyOp, DroneEdge.manual_drain_battery, if_pos ha]
      exact ⟨h0, h1, hd, hr⟩
    · obtain ⟨g0, g1, g2⟩ := manual_drain_eqs s a ha
      rw [DroneEdge.applyOp]
      refine ⟨?_, ?_, ?_, ?_⟩
      · rw [g0]; omega
      · rw [g0]; omega
      · rw [g1]; exact hd
      · rw [g2]; exact hr

/-- Any sequence of battery operations preserves the range invariant. -/
theorem applyOps_inv (s : DroneEdgeCtl) (ops : List BatteryOp) (h : CtlInv s) :
    CtlInv (DroneEdge.applyOps s ops) := by
  induction ops generalizing s with
  | nil => exact h
  | cons op ops ih => exact ih _ (applyOp_inv s op h)

/-- Anomaly lists survive the encode-decode round trip (mapM recursion
with an explicit accumulator). -/
theorem anomaly_mapM_loop_roundtrip (as acc : List AnomalyEvent) :
    List.mapM.loop AnomalyEvent.from_json (as.map AnomalyEvent.to_json) acc =
      some (acc.reverse ++ as) := by
  induction as generalizing acc with
  | nil => simp [List.mapM.loop]
  | cons a as ih =>
    show List.mapM.loop AnomalyEvent.from_json (a.to_json :: as.map AnomalyEvent.to_json) acc = _
    have h1 : AnomalyEvent.from_json a.to_json = some a := rfl
    simp [List.mapM.loop, h1, ih]

/-- C1: evaluated at the failing input (battery at level 100 with low
threshold 20, not returning), the request to set the low threshold to 50
is accepted, yet the battery low threshold stays 20 and the whole state is
unchanged: the method never assigns battery.LOW_BATTERY_THRESHOLD, so the
update the claim describes does not happen.  The rejection path for the
out-of-range value 100 does leave all state unchanged as claimed. -/
theorem set_low_battery_threshold_never_updates :
    (DroneEdge.set_low_battery_threshold
      ⟨Battery.init 100 3 10 20, 0, false⟩ 50).2 = true ∧
    (DroneEdge.set_low_battery_threshold
      ⟨Battery.init 100 3 10 20, 0, false⟩ 50).1.battery.LOW_BATTERY_THRESHOLD = 20 ∧
    (DroneEdge.set_low_battery_threshold
      ⟨Battery.init 100 3 10 20, 0, false⟩ 50).1 = ⟨Battery.init 100 3 10 20, 0, false⟩ ∧
    (DroneEdge.set_low_battery_threshold
      ⟨Battery.init 100 3 10 20, 0, false⟩ 100).2 = false ∧
    (DroneEdge.set_low_battery_threshold
      ⟨Battery.init 100 3 10 20, 0, false⟩ 100).1 = ⟨Battery.init 100 3 10 20, 0, false⟩ := by
  decide

/-- C5: a flushed batch with at least one reading carrying both fields
produces a report whose averages are the arithmetic means over exactly the
valid readings and whose sensor count is the number of distinct sensor ids
among them; a batch with no valid reading produces no report at all. -/
theorem send_report_averages (battery : Battery) (now : String)
    (readings : List RawReading) (anomalies_list : List AnomalyEvent) :
    (validReadings readings ≠ [] →
      DroneEdge.send_report battery now readings anomalies_list =
        some { drone_id := "drone1", timestamp := now, battery_level := battery.level,
               status := if battery.returning then "returning" else "active",
               avg_temperature :=
                 ((validReadings readings).map (fun r => r.temperature.getD 0)).sum /
                   (validReadings readings).length,
               avg_humidity :=
                 ((validReadings readings).map (fun r => r.humidity.getD 0)).sum /
                   (validReadings readings).length,
               sensor_count :=
                 (((validReadings readings).filterMap RawReading.sensor_id).dedup).length,
               anomalies := anomalies_list }) ∧
    (validReadings readings = [] →
      DroneEdge.send_report battery now readings anomalies_list = none) := by
  constructor
  · intro hv
    have hr : readings ≠ [] := by
      intro h
      rw [h] at hv
      exact hv rfl
    simp [DroneEdge.send_report, hr, hv]
  · intro hv
    by_cases hr : readings = []
    · simp [DroneEdge.send_report, hr]
    · simp [DroneEdge.send_report, hr, hv]

/-- C5 witness: on the mixed batch the invalid reading is excluded, the
averages are taken over the two valid readings (15 and 30) and the two
valid readings share one sensor id. -/
theorem send_report_averages_witness :
    DroneEdge.send_report (Battery.init 80 3 10 20) "t0" mixedRawBatch [] =
      some exampleReport := by
  have h := (send_report_averages (Battery.init 80 3 10 20) "t0" mixedRawBatch []).1
    (by decide)
  rw [h]
  simp [mixedRawBatch, validReadings, exampleReport, Battery.init, List.dedup]
  norm_num

/-- C6: a connectivity failure while delivering a report persists the
exact encoded report bytes as one new record under the fresh name and the
operation still returns (no error escapes); a successful delivery
persists nothing. -/
theorem deliver_report_absorbs_failure (rpt : DroneReport) (fname : String)
    (store : UnsentStore) (h : fname ∉ store.map Prod.fst) :
    DroneEdge.deliver_report rpt SendOutcome.connectivity_failure fname store =
      store ++ [(fname, rpt.to_bytes)] ∧
    ((DroneEdge.deliver_report rpt SendOutcome.connectivity_failure fname store).map
        Prod.fst).count fname = 1 ∧
    DroneEdge.deliver_report rpt SendOutcome.success fname store = store := by
  refine ⟨rfl, ?_, rfl⟩
  have h0 : (store.map Prod.fst).count fname = 0 := List.count_eq_zero.mpr (by simpa using h)
  simp [DroneEdge.deliver_report, List.count_append, h0]

/-- C6 witness: delivering the example report into an empty store under a
fresh name. -/
theorem deliver_report_absorbs_failure_witness :
    DroneEdge.deliver_report exampleReport SendOutcome.connectivity_failure "r1.json" [] =
      [] ++ [("r1.json", exampleReport.to_bytes)] ∧
    ((DroneEdge.deliver_report exampleReport SendOutcome.connectivity_failure
        "r1.json" []).map Prod.fst).count "r1.json" = 1 ∧
    DroneEdge.deliver_report exampleReport SendOutcome.success "r1.json" [] = [] :=
  deliver_report_absorbs_failure exampleReport "r1.json" [] (by simp)

/-- C7: evaluated at the failing input: the stored record holds bytes that
do not decode as a report, yet a retry cycle with the collector
unreachable leaves the record present and byte-identical, and a cycle with
the collector reachable re-sends the raw bytes and deletes the record -
the loop never detects corrupt content (the parse whose failure would
delete it is commented out in the source), contradicting the claimed
delete-and-log behavior for malformed content. -/
theorem retry_ignores_corrupt_content :
    DroneReport.decode corruptFrame = none ∧
    DroneEdge.retry_cycle false [("1716.json", corruptFrame)] =
      [("1716.json", corruptFrame)] ∧
    DroneEdge.retry_cycle true [("1716.json", corruptFrame)] = [] :=
  ⟨rfl, rfl, rfl⟩

/-- C8: decoding the bytes produced by encoding yields the original
record, for sensor readings and drone reports alike; encode appends the
newline delimiter and decode splits off one delimiter-stripped frame and
parses it. -/
theorem codec_roundtrip (r : SensorReading) (rpt : DroneReport) (now : String) :
    SensorReading.decode now (SensorReading.to_bytes r) = some r ∧
    DroneReport.decode (DroneReport.to_bytes rpt) = some rpt := by
  constructor
  · rfl
  · cases rpt with
    | mk did ts bl st avgT avgH sc ans =>
      show DroneReport.from_json (DroneReport.to_json ⟨did, ts, bl, st, avgT, avgH, sc, ans⟩) = _
      simp only [DroneReport.to_json, DroneReport.from_json]
      simp [kwlookup, List.mapM, anomaly_mapM_loop_roundtrip]

/-- C9: a positive manual drain lowers the level by the amount (clamped at
0), keeps the low threshold, and re-evaluates the returning flag against
the current low threshold: freshly dropping below it turns returning on
and starts the 2-tick travel countdown unless one is already running,
while a level at or above the critical threshold while returning clears
the flag and cancels travel. -/
theorem manual_drain_reevaluates (s : DroneEdgeCtl) (amount : ℤ) (h : 0 < amount) :
    (DroneEdge.manual_drain_battery s amount).battery.level =
      max 0 (s.battery.level - amount) ∧
    (DroneEdge.manual_drain_battery s amount).battery.LOW_BATTERY_THRESHOLD =
      s.battery.LOW_BATTERY_THRESHOLD ∧
    (max 0 (s.battery.level - amount) < s.battery.LOW_BATTERY_THRESHOLD →
      s.battery.returning = false →
      (DroneEdge.manual_drain_battery s amount).battery.returning = true ∧
      (DroneEdge.manual_drain_battery s amount).travel_ticks_remaining =
        (if s.travel_ticks_remaining = 0 then 2 else s.travel_ticks_remaining)) ∧
    (Battery.CRITICAL_BATTERY_THRESHOLD ≤ max 0 (s.battery.level - amount) →
      s.battery.returning = true →
      (DroneEdge.manual_drain_battery s amount).battery.returning = false ∧
      (DroneEdge.manual_drain_battery s amount).travel_ticks_remaining = 0) := by
  have hn : ¬ amount ≤ 0 := not_le.mpr h
  rw [DroneEdge.manual_drain_battery]
  simp only [if_neg hn]
  split_ifs <;> simp_all

/-- C9 witness: draining 85 from a full battery with low threshold 20
lands at 15, flips returning on and starts the 2-tick travel countdown. -/
theorem manual_drain_reevaluates_witness :
    (DroneEdge.manual_drain_battery
      ⟨Battery.init 100 3 10 20, 0, false⟩ 85).battery.level = 15 ∧
    (DroneEdge.manual_drain_battery
      ⟨Battery.init 100 3 10 20, 0, false⟩ 85).battery.returning = true ∧
    (DroneEdge.manual_drain_battery
      ⟨Battery.init 100 3 10 20, 0, false⟩ 85).travel_ticks_remaining = 2 := by
  obtain ⟨hl, hlow, himp, hcrit⟩ :=
    manual_drain_reevaluates ⟨Battery.init 100 3 10 20, 0, false⟩ 85 (by decide)
  obtain ⟨hret, htrav⟩ := himp (by decide) rfl
  refine ⟨?_, hret, ?_⟩
  · rw [hl]; decide
  · rw [htrav]; decide

/-- C10: from any in-range level with the non-negative rates the program
uses, the level stays in 0..100 across every sequence of ticks and manual
drains; a positive manual drain clamps at 0 and never raises the level,
and a non-positive amount leaves the whole state unchanged. -/
theorem battery_level_stays_in_range (s : DroneEdgeCtl) (ops : List BatteryOp)
    (h0 : 0 ≤ s.battery.level) (h1 : s.battery.level ≤ 100)
    (hd : 0 ≤ s.battery.drain_rate) (hr : 0 ≤ s.battery.recharge_rate) :
    (0 ≤ (DroneEdge.applyOps s ops).battery.level ∧
      (DroneEdge.applyOps s ops).battery.level ≤ 100) ∧
    (∀ a : ℤ, 0 < a →
      (DroneEdge.manual_drain_battery s a).battery.level = max 0 (s.battery.level - a) ∧
      (DroneEdge.manual_drain_battery s a).battery.level ≤ s.battery.level) ∧
    (∀ a : ℤ, a ≤ 0 → DroneEdge.manual_drain_battery s a = s) := by
  refine ⟨?_, ?_, ?_⟩
  · obtain ⟨g0, g1, _, _⟩ := applyOps_inv s ops ⟨h0, h1, hd, hr⟩
    exact ⟨g0, g1⟩
  · intro a ha
    obtain ⟨g0, _, _⟩ := manual_drain_eqs s a (not_le.mpr ha)
    refine ⟨g0, ?_⟩
    rw [g0]
    omega
  · intro a ha
    rw [DroneEdge.manual_drain_battery, if_pos ha]

/-- C10 witness: a tick, a 30-point manual drain and a charging tick from
a full battery stay in range. -/
theorem battery_level_stays_in_range_witness :
    0 ≤ (DroneEdge.applyOps ⟨Battery.init 100 3 10 20, 0, false⟩
        [BatteryOp.tick false, BatteryOp.drain 30, BatteryOp.tick true]).battery.level ∧
    (DroneEdge.applyOps ⟨Battery.init 100 3 10 20, 0, false⟩
        [BatteryOp.tick false, BatteryOp.drain 30, BatteryOp.tick true]).battery.level ≤ 100 :=
  (battery_level_stays_in_range ⟨Battery.init 100 3 10 20, 0, false⟩
    [BatteryOp.tick false, BatteryOp.drain 30, BatteryOp.tick true]
    (by decide) (by decide) (by decide) (by decide)).1

/-- C4 witness: the charging-run formula instantiated at ticks 30 and 37. -/
theorem forward_tick_charging_policy_witness :
    (runTicks (30 + 0)).battery.level = 23 + 10 * 0 ∧
    (runTicks (30 + 7)).battery.level = 23 + 10 * 7 := by
  obtain ⟨hpolicy, l26, r26, l27, r27, t27, l28, r28, t28, l29, r29, t29,
    hball, r36, l37, r37⟩ := forward_tick_charging_policy
  exact ⟨hball 0 (by decide), hball 7 (by decide)⟩
